import Mathlib

/-!
Shallow embedding of `src/mongo/platform/atomic_intrinsics_gcc.h`.

A cell of word type T is modelled by its current value, a `Nat` standing for
the bit pattern; fixed-width overflow is made explicit with `% 2 ^ w` where
the code performs machine addition.  Each operation is a pure function from
the cell value (and the operation's arguments) to the pair
`(returned value, cell value afterwards)`; `store`, which returns nothing in
the code, yields only the new cell value.  The oversized strategy's retry
loops are modelled with explicit fuel: `none` means the loop did not finish
within the given number of iterations.  Sequential state threading models
execution without concurrent interference, which is the setting of the
claims about results and final cell values.
-/

namespace AtomicIntrinsics

/-- Native-width `compareAndSwap`: `lock cmpxchg` (and, on the ARM branch,
`__sync_val_compare_and_swap`) compares the cell with `expected`; on equality
the cell becomes `newValue`; in every case the value observed in the cell
immediately before the instruction lands in `result`.  Both preprocessor
branches have this same value semantics. -/
def compareAndSwap (v expected newValue : Nat) : Nat × Nat :=
  (v, if v = expected then newValue else v)

/-- Native-width `swap`, non-ARM branch: `xchg %[r], %[dest]` exchanges the
register (initialized to `newValue`) with the cell, so the call returns the
prior cell value and the cell holds `newValue`. -/
def swap (v newValue : Nat) : Nat × Nat :=
  (v, newValue)

/-- Native-width `swap`, ARM branch (`#if defined(__arm__)`):
`result = __sync_lock_test_and_set(dest, newValue)` stores `newValue` and
returns the prior cell value; the following `__sync_lock_release(dest)`
stores the constant 0 to the cell.  So the call returns the prior value but
the cell ends holding 0. -/
def swapArm (v newValue : Nat) : Nat × Nat :=
  let afterTestAndSet := newValue
  let afterRelease := 0
  (v, afterRelease)

/-- Native-width `load`: a fenced plain read of the cell; the cell is not
written, and the read value is returned.  Result pair is
(returned value, cell value afterwards). -/
def load (v : Nat) : Nat × Nat :=
  (v, v)

/-- Native-width `loadRelaxed`: a bare read `return *value`; no write. -/
def loadRelaxed (v : Nat) : Nat × Nat :=
  (v, v)

/-- Native-width `store`: a fenced plain write `*dest = newValue`; returns
nothing, so only the new cell value is produced. -/
def store (v newValue : Nat) : Nat :=
  newValue

/-- Value semantics of `lock xadd %[src], %[dest]`: the cell receives the
machine sum of the cell and the register operand, and the register operand
receives the prior cell value, which the function returns.  `r` is whatever
the register holds when the instruction executes. -/
def xadd (w v r : Nat) : Nat × Nat :=
  (v, (v + r) % 2 ^ w)

/-- Native-width `fetchAndAdd`, non-ARM branch: `T result = increment;` puts
the increment in the register operand, then `lock xadd` runs on it. -/
def fetchAndAdd (w v increment : Nat) : Nat × Nat :=
  xadd w v increment

/-- Variant of the non-ARM `fetchAndAdd` with the initialization
`= increment` omitted: the register operand of `lock xadd` then holds an
arbitrary leftover value `junk` instead of the increment. -/
def fetchAndAddNoInit (w v increment junk : Nat) : Nat × Nat :=
  xadd w v junk

/-- Native-width `fetchAndAdd`, ARM branch: `T result = increment;` then
`result = __sync_fetch_and_add(dest, increment);` — the built-in adds the
increment to the cell and its return value overwrites `result`. -/
def fetchAndAddArm (w v increment : Nat) : Nat × Nat :=
  (v, (v + increment) % 2 ^ w)

/-- Variant of the ARM-branch `fetchAndAdd` with the initialization omitted:
`result` starts as an arbitrary leftover value `junk` and is immediately
overwritten by the built-in's return value. -/
def fetchAndAddArmNoInit (w v increment junk : Nat) : Nat × Nat :=
  let result := junk
  let result := v
  (result, (v + increment) % 2 ^ w)

/-- Names of the static operations declared by the native-width
`AtomicIntrinsics<T>` class. -/
def nativeOps : List String :=
  ["compareAndSwap", "swap", "load", "loadRelaxed", "store", "fetchAndAdd"]

end AtomicIntrinsics

namespace AtomicIntrinsicsOversized

/-- Oversized `compareAndSwap`: the `lock cmpxchg8b` sequence loads
`newValue` into ecx:ebx and `result` (initialized to `expected`) into
edx:eax, executes the double-width compare-and-swap against the cell, and
stores edx:eax back into `result`.  On equality the cell becomes `newValue`
and edx:eax is unchanged (it equals the old cell value); on inequality
edx:eax receives the current cell value.  Either way the prior cell value is
returned.  The ARM branch `__sync_val_compare_and_swap` has the same value
semantics. -/
def compareAndSwap (v expected newValue : Nat) : Nat × Nat :=
  (v, if v = expected then newValue else v)

/-- Oversized `swap`: `do { expected = *dest; actual = compareAndSwap(dest,
expected, newValue); } while (actual != expected); return actual;`.
Modelled with explicit fuel; `none` means the loop has not exited within
`fuel` iterations.  With sequential state threading (no interference) the
read and the compare-and-swap see the same cell value. -/
def swapLoop : Nat → Nat → Nat → Option (Nat × Nat)
  | 0, _, _ => none
  | fuel + 1, v, newValue =>
    let expected := v
    let cas := compareAndSwap v expected newValue
    if cas.1 = expected then some (cas.1, cas.2)
    else swapLoop fuel cas.2 newValue

/-- Oversized `load`: `return compareAndSwap(const_cast<volatile T*>(value),
T(0), T(0));`. -/
def load (v : Nat) : Nat × Nat :=
  compareAndSwap v 0 0

/-- Oversized `store`: `swap(dest, newValue);` with the returned previous
value discarded; only the final cell value remains. -/
def store (fuel v newValue : Nat) : Option Nat :=
  (swapLoop fuel v newValue).map Prod.snd

/-- Oversized `fetchAndAdd`: `do { expected = load(dest); actual =
compareAndSwap(dest, expected, expected + increment); } while (actual !=
expected); return actual;`.  The inner `load` is the zero-compare-and-swap
above, so it may rewrite a zero cell with the same zero; machine addition
wraps at the word width `w`. -/
def fetchAndAddLoop (w : Nat) : Nat → Nat → Nat → Option (Nat × Nat)
  | 0, _, _ => none
  | fuel + 1, v, increment =>
    let ld := load v
    let expected := ld.1
    let cas := compareAndSwap ld.2 expected ((expected + increment) % 2 ^ w)
    if cas.1 = expected then some (cas.1, cas.2)
    else fetchAndAddLoop w fuel cas.2 increment

/-- Names of the static operations declared by the oversized
`AtomicIntrinsics<T, disable_if ...>` specialization; it declares no
`loadRelaxed`. -/
def oversizedOps : List String :=
  ["compareAndSwap", "swap", "load", "store", "fetchAndAdd"]

end AtomicIntrinsicsOversized

/-- C1: For every cell value v, expected value e and new value n,
`compareAndSwap` sets the cell to n and returns e exactly when v = e;
otherwise the cell is left unchanged and the call returns the actual current
value v.  This holds for the native-width and the oversized
implementations. -/
theorem c1_cas_contract (v e n : Nat) :
    (AtomicIntrinsics.compareAndSwap v e n = (e, n) ↔ v = e)
  ∧ (v ≠ e → AtomicIntrinsics.compareAndSwap v e n = (v, v))
  ∧ (AtomicIntrinsicsOversized.compareAndSwap v e n = (e, n) ↔ v = e)
  ∧ (v ≠ e → AtomicIntrinsicsOversized.compareAndSwap v e n = (v, v)) := by
  unfold AtomicIntrinsics.compareAndSwap AtomicIntrinsicsOversized.compareAndSwap
  by_cases h : v = e <;> simp [h, Prod.ext_iff]

/-- Witness for C1, the spec's concrete scenario: a cell holding 5 under
`compareAndSwap(cell, 5, 7)` returns 5 and becomes 7; the cell now holding
7 under `compareAndSwap(cell, 5, 9)` returns 7 and stays 7. -/
theorem c1_cas_contract_witness :
    AtomicIntrinsics.compareAndSwap 5 5 7 = (5, 7)
  ∧ AtomicIntrinsics.compareAndSwap 7 5 9 = (7, 7) :=
  ⟨(c1_cas_contract 5 5 7).1.mpr rfl, (c1_cas_contract 7 5 9).2.1 (by decide)⟩

/-- C2: For every cell value v, the oversized `load`, implemented exactly as
`compareAndSwap(cell, 0, 0)`, returns v and leaves the cell equal to v —
including v = 0, where the compare-and-swap succeeds but rewrites the same
zero. -/
theorem c2_oversized_load (v : Nat) :
    AtomicIntrinsicsOversized.load v = AtomicIntrinsicsOversized.compareAndSwap v 0 0
  ∧ AtomicIntrinsicsOversized.load v = (v, v) := by
  refine ⟨rfl, ?_⟩
  unfold AtomicIntrinsicsOversized.load AtomicIntrinsicsOversized.compareAndSwap
  by_cases h : v = 0 <;> simp [h]

/-- C3: Evaluation at the failing input.  With the cell holding 3,
`swap(cell, 10)` on the native ARM branch returns 3 but leaves the cell at
0 (the trailing `__sync_lock_release` stores 0), while the native non-ARM
branch and the oversized retry loop return 3 and leave the cell at 10 as
the contract demands. -/
theorem c3_arm_swap_bug :
    AtomicIntrinsics.swapArm 3 10 = (3, 0)
  ∧ AtomicIntrinsics.swap 3 10 = (3, 10)
  ∧ AtomicIntrinsicsOversized.swapLoop 1 3 10 = some (3, 10) := by
  decide

/-- C4: For every width w, cell value v and increment i, `fetchAndAdd`
returns v, the value immediately before the addition, and leaves the cell
equal to the fixed-width sum (v + i) mod 2^w — in the native-width
implementation (both preprocessor branches) and in the oversized retry-loop
implementation. -/
theorem c4_fetch_and_add (w v i : Nat) :
    AtomicIntrinsics.fetchAndAdd w v i = (v, (v + i) % 2 ^ w)
  ∧ AtomicIntrinsics.fetchAndAddArm w v i = (v, (v + i) % 2 ^ w)
  ∧ AtomicIntrinsicsOversized.fetchAndAddLoop w 1 v i = some (v, (v + i) % 2 ^ w) := by
  refine ⟨rfl, rfl, ?_⟩
  unfold AtomicIntrinsicsOversized.fetchAndAddLoop AtomicIntrinsicsOversized.load
    AtomicIntrinsicsOversized.compareAndSwap
  by_cases h : v = 0 <;> simp [h]

/-- C5 counterexample: the oversized specialization declares no
`loadRelaxed`, so the two strategies do not implement all six operations in
common; moreover on the native ARM swap branch the observable cell value
differs from the oversized swap at the concrete input v = 3, n = 10. -/
theorem c5_counterexample :
    ("loadRelaxed" ∈ AtomicIntrinsics.nativeOps
      ∧ "loadRelaxed" ∉ AtomicIntrinsicsOversized.oversizedOps)
  ∧ some (AtomicIntrinsics.swapArm 3 10) ≠ AtomicIntrinsicsOversized.swapLoop 1 3 10 := by
  decide

/-- C5 amended: the strategies share five operations — compareAndSwap,
swap, load, store, fetchAndAdd — while `loadRelaxed` exists only in the
native class; for every shared operation and every input, executed without
concurrent interference, the oversized implementation returns the same
value and leaves the cell with the same value as the native-width
implementation's non-ARM branch. -/
theorem c5_strategy_equivalence (w v e n i : Nat) :
    ("loadRelaxed" ∈ AtomicIntrinsics.nativeOps
      ∧ "loadRelaxed" ∉ AtomicIntrinsicsOversized.oversizedOps)
  ∧ AtomicIntrinsicsOversized.compareAndSwap v e n = AtomicIntrinsics.compareAndSwap v e n
  ∧ AtomicIntrinsicsOversized.swapLoop 1 v n = some (AtomicIntrinsics.swap v n)
  ∧ AtomicIntrinsicsOversized.load v = AtomicIntrinsics.load v
  ∧ AtomicIntrinsicsOversized.store 1 v n = some (AtomicIntrinsics.store v n)
  ∧ AtomicIntrinsicsOversized.fetchAndAddLoop w 1 v i = some (AtomicIntrinsics.fetchAndAdd w v i) := by
  refine ⟨by decide, rfl, ?_, ?_, ?_, ?_⟩
  · unfold AtomicIntrinsicsOversized.swapLoop AtomicIntrinsicsOversized.compareAndSwap
      AtomicIntrinsics.swap
    simp
  · unfold AtomicIntrinsicsOversized.load AtomicIntrinsicsOversized.compareAndSwap
      AtomicIntrinsics.load
    by_cases h : v = 0 <;> simp [h]
  · unfold AtomicIntrinsicsOversized.store AtomicIntrinsicsOversized.swapLoop
      AtomicIntrinsicsOversized.compareAndSwap AtomicIntrinsics.store
    simp
  · unfold AtomicIntrinsicsOversized.fetchAndAddLoop AtomicIntrinsicsOversized.load
      AtomicIntrinsicsOversized.compareAndSwap AtomicIntrinsics.fetchAndAdd
      AtomicIntrinsics.xadd
    by_cases h : v = 0 <;> simp [h]

/-- C6: On the oversized strategy, for every initial cell value V1 and every
value V2, `store(cell, V2)` — swap with the returned previous value
discarded — leaves the cell at V2, and the following `load(cell)` returns
exactly V2 with no concurrent writers. -/
theorem c6_store_then_load (v1 v2 : Nat) :
    AtomicIntrinsicsOversized.store 1 v1 v2 = some v2
  ∧ (AtomicIntrinsicsOversized.store 1 v1 v2).map
      (fun c => (AtomicIntrinsicsOversized.load c).1) = some v2
  ∧ AtomicIntrinsicsOversized.load v2 = (v2, v2) := by
  have hs : AtomicIntrinsicsOversized.store 1 v1 v2 = some v2 := by
    unfold AtomicIntrinsicsOversized.store AtomicIntrinsicsOversized.swapLoop
      AtomicIntrinsicsOversized.compareAndSwap
    simp
  have hl : AtomicIntrinsicsOversized.load v2 = (v2, v2) := by
    unfold AtomicIntrinsicsOversized.load AtomicIntrinsicsOversized.compareAndSwap
    by_cases h : v2 = 0 <;> simp [h]
  exact ⟨hs, by rw [hs]; simp [hl], hl⟩

/-- C7: Every modelled operation of both strategies is a total function,
and the oversized retry loops in swap and fetchAndAdd need at least one
iteration (fuel 0 yields no result) and complete in exactly one iteration
when no concurrent update interferes. -/
theorem c7_loop_termination (w v n i : Nat) :
    AtomicIntrinsicsOversized.swapLoop 0 v n = none
  ∧ AtomicIntrinsicsOversized.swapLoop 1 v n = some (v, n)
  ∧ AtomicIntrinsicsOversized.fetchAndAddLoop w 0 v i = none
  ∧ AtomicIntrinsicsOversized.fetchAndAddLoop w 1 v i = some (v, (v + i) % 2 ^ w) := by
  refine ⟨rfl, ?_, rfl, (c4_fetch_and_add w v i).2.2⟩
  unfold AtomicIntrinsicsOversized.swapLoop AtomicIntrinsicsOversized.compareAndSwap
  simp

/-- C8 counterexample: in the non-ARM native `fetchAndAdd`, omitting the
initialization `T result = increment` leaves the `lock xadd` register
operand with an arbitrary leftover value; with width 8, cell 1, increment 2
and leftover value 5 the variant leaves the cell at 6 instead of 3. -/
theorem c8_counterexample :
    AtomicIntrinsics.fetchAndAddNoInit 8 1 2 5 ≠ AtomicIntrinsics.fetchAndAdd 8 1 2 := by
  decide

/-- C8 amended: the increment initialization is an inert placeholder only on
the ARM branch, where the built-in's return value overwrites it and the
omission variant coincides with the original for every input; on the
non-ARM branch the initialization supplies the addend to `lock xadd`, so the
original adds the increment while the omission variant adds whatever the
register happened to hold. -/
theorem c8_init_roles (w v i junk : Nat) :
    AtomicIntrinsics.fetchAndAddArmNoInit w v i junk = AtomicIntrinsics.fetchAndAddArm w v i
  ∧ AtomicIntrinsics.fetchAndAdd w v i = AtomicIntrinsics.xadd w v i
  ∧ AtomicIntrinsics.fetchAndAddNoInit w v i junk = AtomicIntrinsics.xadd w v junk :=
  ⟨rfl, rfl, rfl⟩

/-- C10: For every cell value v, native `load`, native `loadRelaxed` and
the oversized `load` all return v and leave the cell equal to v — the
oversized load's compare-and-swap writes only when v = 0, and then it
writes the same zero back — so repeated loads with no intervening writes
all return v. -/
theorem c10_load_frame (v : Nat) :
    AtomicIntrinsics.load v = (v, v)
  ∧ AtomicIntrinsics.loadRelaxed v = (v, v)
  ∧ (AtomicIntrinsicsOversized.load v).2 = v
  ∧ AtomicIntrinsicsOversized.load (AtomicIntrinsicsOversized.load v).2
      = AtomicIntrinsicsOversized.load v := by
  refine ⟨rfl, rfl, ?_, ?_⟩ <;>
    unfold AtomicIntrinsicsOversized.load AtomicIntrinsicsOversized.compareAndSwap <;>
    by_cases h : v = 0 <;> simp [h]
